import Mathlib

/-!
Shallow embedding of `check_status.py` (AI-Trader system status checker).

The checker holds three ordered collections of messages (issues, warnings,
success).  Every interaction with the outside world (interpreter version,
importable packages, configuration file contents, environment variables,
file system, TCP connect outcomes) is captured in an `Env` value, and each
`check_*` method of `SystemStatusChecker` becomes a pure function from the
environment and the current checker state to a result and a new state.
-/

/-- The mutable state of `SystemStatusChecker`: the three message lists
created empty in `__init__`. -/
structure CheckerState where
  issues : List String
  warnings : List String
  success : List String
deriving DecidableEq

/-- The state right after `SystemStatusChecker.__init__`. -/
def initialState : CheckerState := ⟨[], [], []⟩

/-- Outcome of one TCP connect attempt in `check_port`: either
`connect_ex` returned a result code, or some exception was raised
anywhere inside the `try` block. -/
inductive ConnectOutcome where
  | result (code : Int)
  | exn (msg : String)
deriving DecidableEq

/-- One entry of the `models` list of the configuration document;
`enabled` is the truthiness of the `enabled` flag read with default
`False`. -/
structure ModelEntry where
  enabled : Bool
deriving DecidableEq

/-- The parsed configuration document, as far as `check_config_file`
inspects it: presence of the four required top level fields, and the
value of the `models` field read with default empty list. -/
structure ConfigDoc where
  has_agent_type : Bool
  has_date_range : Bool
  has_models : Bool
  has_agent_config : Bool
  models : List ModelEntry
deriving DecidableEq

/-- State of the configuration file `configs/default_config.json` as seen
by `check_config_file`: absent, unreadable, malformed JSON, or parsed. -/
inductive ConfigFileState where
  | absent
  | parseError (msg : String)
  | readError (msg : String)
  | parsed (doc : ConfigDoc)
deriving DecidableEq

/-- Everything the checker reads from the outside world. -/
structure Env where
  pyMajor : Nat
  pyMinor : Nat
  pyMicro : Nat
  importOk : String → Bool
  config : ConfigFileState
  envFileExists : Bool
  getenv : String → Option String
  dataDirExists : Bool
  numPriceFiles : Nat
  agentDataExists : Bool
  fileExists : String → Bool
  portEnv : String → Option Nat
  connect : Nat → ConnectOutcome

/-- Python truthiness of an `os.getenv` result: `None` and the empty
string are falsy. -/
def truthy (v : Option String) : Bool :=
  match v with
  | none => false
  | some str => !(str == "")

def pyOkMsg (ma mi mc : Nat) : String :=
  "✅ Python " ++ toString ma ++ "." ++ toString mi ++ "." ++ toString mc ++ " - OK"

def pyBadMsg (ma mi mc : Nat) : String :=
  "❌ Python " ++ toString ma ++ "." ++ toString mi ++ "." ++ toString mc ++ " - Потрібна версія 3.10+"

/-- `check_python_version`: passes when `major >= 3 and minor >= 10`. -/
def check_python_version (ma mi mc : Nat) (s : CheckerState) : Bool × CheckerState :=
  if 3 ≤ ma ∧ 10 ≤ mi then
    (true, { s with success := s.success ++ [pyOkMsg ma mi mc] })
  else
    (false, { s with issues := s.issues ++ [pyBadMsg ma mi mc] })

def required_packages : List (String × String) :=
  [("langchain", "langchain"),
   ("langchain_openai", "langchain-openai"),
   ("langchain_mcp_adapters", "langchain-mcp-adapters"),
   ("fastmcp", "fastmcp"),
   ("dotenv", "python-dotenv")]

def depOkMsg (pkg : String) : String := "✅ " ++ pkg ++ " - встановлено"

def depMissingMsg (pkg : String) : String := "❌ " ++ pkg ++ " - не встановлено"

/-- Loop body of `check_dependencies`: the accumulator carries the
`missing` list and the checker state. -/
def depStep (e : Env) (acc : List String × CheckerState) (p : String × String) :
    List String × CheckerState :=
  if e.importOk p.1 then
    (acc.1, { acc.2 with success := acc.2.success ++ [depOkMsg p.2] })
  else
    (acc.1 ++ [p.2], { acc.2 with issues := acc.2.issues ++ [depMissingMsg p.2] })

/-- `check_dependencies`: tries to import each required package. -/
def check_dependencies (e : Env) (s : CheckerState) : Bool × CheckerState :=
  let r := required_packages.foldl (depStep e) ([], s)
  (r.1.length == 0, r.2)

def configNotFoundMsg : String :=
  "❌ Файл конфігурації не знайдено: configs/default_config.json"

def jsonErrorMsg (m : String) : String :=
  "❌ Помилка формату JSON у конфігурації: " ++ m

def readErrorMsg (m : String) : String :=
  "❌ Помилка читання конфігурації: " ++ m

def missingFieldMsg (f : String) : String :=
  "❌ Відсутнє обов\x27язкове поле в конфігурації: " ++ f

def noEnabledModelsWarn : String := "⚠️  Немає активних моделей у конфігурації"

def enabledModelsMsg (n : Nat) : String :=
  "✅ Знайдено " ++ toString n ++ " активних моделей"

def configValidMsg : String :=
  "✅ Файл конфігурації валідний: configs/default_config.json"

/-- `check_config_file`: absence, parse or read faults give an Issue; a
parsed document is checked for the four required fields in order, short
circuiting at the first missing one; then enabled models are counted. -/
def check_config_file (cfg : ConfigFileState) (s : CheckerState) : Bool × CheckerState :=
  match cfg with
  | .absent => (false, { s with issues := s.issues ++ [configNotFoundMsg] })
  | .parseError m => (false, { s with issues := s.issues ++ [jsonErrorMsg m] })
  | .readError m => (false, { s with issues := s.issues ++ [readErrorMsg m] })
  | .parsed d =>
    if !d.has_agent_type then
      (false, { s with issues := s.issues ++ [missingFieldMsg "agent_type"] })
    else if !d.has_date_range then
      (false, { s with issues := s.issues ++ [missingFieldMsg "date_range"] })
    else if !d.has_models then
      (false, { s with issues := s.issues ++ [missingFieldMsg "models"] })
    else if !d.has_agent_config then
      (false, { s with issues := s.issues ++ [missingFieldMsg "agent_config"] })
    else
      let enabled_models := d.models.filter (fun m => m.enabled)
      let s1 := if enabled_models.length == 0 then
          { s with warnings := s.warnings ++ [noEnabledModelsWarn] }
        else
          { s with success := s.success ++ [enabledModelsMsg enabled_models.length] }
      (true, { s1 with success := s1.success ++ [configValidMsg] })

def envNotFoundWarn : String :=
  "⚠️  Файл .env не знайдено (може бути використано системні змінні)"

def envFoundMsg : String := "✅ Файл .env знайдено"

def varSetMsg (desc : String) : String := "✅ " ++ desc ++ " встановлено"

def criticalVarWarn (desc v : String) : String :=
  "⚠️  " ++ desc ++ " (" ++ v ++ ") не встановлено"

def optionalVarWarn (desc v : String) : String :=
  "⚠️  " ++ desc ++ " (" ++ v ++ ") не встановлено (опціонально)"

def critical_vars : List (String × String) :=
  [("OPENAI_API_KEY", "API ключ OpenAI"),
   ("OPENAI_API_BASE", "Base URL OpenAI")]

def optional_vars : List (String × String) :=
  [("ALPHAADVANTAGE_API_KEY", "API ключ Alpha Vantage"),
   ("JINA_API_KEY", "API ключ Jina AI")]

/-- Loop body for the critical variables of `check_env_file`. -/
def envVarStepCrit (e : Env) (st : CheckerState) (p : String × String) : CheckerState :=
  if truthy (e.getenv p.1) then
    { st with success := st.success ++ [varSetMsg p.2] }
  else
    { st with warnings := st.warnings ++ [criticalVarWarn p.2 p.1] }

/-- Loop body for the optional variables of `check_env_file`. -/
def envVarStepOpt (e : Env) (st : CheckerState) (p : String × String) : CheckerState :=
  if truthy (e.getenv p.1) then
    { st with success := st.success ++ [varSetMsg p.2] }
  else
    { st with warnings := st.warnings ++ [optionalVarWarn p.2 p.1] }

/-- `check_env_file`: the Python method has no `return` statement, so it
returns `None`; the first component is therefore always `none`. -/
def check_env_file (e : Env) (s : CheckerState) : Option Bool × CheckerState :=
  let s1 := if e.envFileExists then
      { s with success := s.success ++ [envFoundMsg] }
    else
      { s with warnings := s.warnings ++ [envNotFoundWarn] }
  let s2 := critical_vars.foldl (envVarStepCrit e) s1
  let s3 := optional_vars.foldl (envVarStepOpt e) s2
  (none, s3)

def dataDirMsg : String := "❌ Директорія data не знайдена"

def priceWarnMsg : String :=
  "⚠️  Файли з даними цін не знайдено (може знадобитися запуск get_daily_price.py)"

def priceOkMsg (n : Nat) : String :=
  "✅ Знайдено " ++ toString n ++ " файлів з даними цін"

def agentDataOkMsg : String := "✅ Директорія agent_data існує"

def agentDataWarnMsg : String :=
  "⚠️  Директорія agent_data не існує (буде створена автоматично)"

/-- `check_data_files`: missing `data` directory is an Issue; missing
price files or missing `agent_data` subdirectory are only Warnings. -/
def check_data_files (e : Env) (s : CheckerState) : Bool × CheckerState :=
  if !e.dataDirExists then
    (false, { s with issues := s.issues ++ [dataDirMsg] })
  else
    let s1 := if e.numPriceFiles == 0 then
        { s with warnings := s.warnings ++ [priceWarnMsg] }
      else
        { s with success := s.success ++ [priceOkMsg e.numPriceFiles] }
    let s2 := if e.agentDataExists then
        { s1 with success := s1.success ++ [agentDataOkMsg] }
      else
        { s1 with warnings := s1.warnings ++ [agentDataWarnMsg] }
    (true, s2)

def serviceOkMsg (nm : String) (port : Nat) : String :=
  "✅ " ++ nm ++ " працює на порту " ++ toString port

def serviceWarnMsg (nm : String) (port : Nat) : String :=
  "⚠️  " ++ nm ++ " не працює на порту " ++ toString port

/-- The service→port table of `check_mcp_services`; each port comes from
an environment variable with a literal default (the value is modelled as
the already parsed integer). -/
def mcpPorts (e : Env) : List (String × Nat) :=
  [("Math Service", (e.portEnv "MATH_HTTP_PORT").getD 8000),
   ("Search Service", (e.portEnv "SEARCH_HTTP_PORT").getD 8001),
   ("Trade Service", (e.portEnv "TRADE_HTTP_PORT").getD 8002),
   ("Price Service", (e.portEnv "GETPRICE_HTTP_PORT").getD 8003)]

/-- `check_port`: true exactly when `connect_ex` returned 0; any raised
exception is caught by the bare `except` and yields false. -/
def check_port (o : ConnectOutcome) : Bool :=
  match o with
  | .result c => c == 0
  | .exn _ => false

/-- Loop body of `check_mcp_services`: the accumulator carries the
`all_running` flag and the checker state. -/
def mcpStep (e : Env) (acc : Bool × CheckerState) (p : String × Nat) :
    Bool × CheckerState :=
  if check_port (e.connect p.2) then
    (acc.1, { acc.2 with success := acc.2.success ++ [serviceOkMsg p.1 p.2] })
  else
    (false, { acc.2 with warnings := acc.2.warnings ++ [serviceWarnMsg p.1 p.2] })

/-- `check_mcp_services`: probes each service port; unreachable services
give Warnings only, and the returned boolean is `all_running`. -/
def check_mcp_services (e : Env) (s : CheckerState) : Bool × CheckerState :=
  (mcpPorts e).foldl (mcpStep e) (true, s)

def required_tools : List String :=
  ["agent_tools/tool_math.py",
   "agent_tools/tool_jina_search.py",
   "agent_tools/tool_trade.py",
   "agent_tools/tool_get_price_local.py",
   "agent_tools/start_mcp_services.py"]

def required_files : List String :=
  ["main.py",
   "requirements.txt",
   "agent/base_agent/base_agent.py"]

def foundMsg (p : String) : String := "✅ " ++ p ++ " - знайдено"

def notFoundMsg (p : String) : String := "❌ " ++ p ++ " - не знайдено"

/-- Loop body shared by `check_agent_tools` and `check_main_files`: the
accumulator carries the `all_exist` flag and the checker state. -/
def fileStep (e : Env) (acc : Bool × CheckerState) (p : String) :
    Bool × CheckerState :=
  if e.fileExists p then
    (acc.1, { acc.2 with success := acc.2.success ++ [foundMsg p] })
  else
    (false, { acc.2 with issues := acc.2.issues ++ [notFoundMsg p] })

/-- `check_agent_tools`: each listed tool file must exist. -/
def check_agent_tools (e : Env) (s : CheckerState) : Bool × CheckerState :=
  required_tools.foldl (fileStep e) (true, s)

/-- `check_main_files`: each listed main file must exist. -/
def check_main_files (e : Env) (s : CheckerState) : Bool × CheckerState :=
  required_files.foldl (fileStep e) (true, s)

/-- Outcome of one probe action as `run_all_checks` sees it: a normal
return value (`None` or a boolean, hence `Option Bool`) or a raised
fault with its message. -/
inductive ActionResult where
  | val (v : Option Bool)
  | fault (msg : String)

/-- A probe action: given the checker state it yields its outcome and
the state reached (appends it made before returning or faulting). -/
def ProbeAction : Type := CheckerState → ActionResult × CheckerState

/-- A declared probe: its display name and its action. -/
def Probe : Type := String × ProbeAction

/-- The Issue entry `run_all_checks` appends when a probe faults. -/
def faultEntry (nm msg : String) : String :=
  "❌ Помилка під час перевірки " ++ nm ++ ": " ++ msg

/-- One iteration of the `run_all_checks` loop: run the probe inside the
`try`, and on a fault append one Issue and record the result `False`. -/
def runProbe (p : Probe) (s : CheckerState) : (String × Option Bool) × CheckerState :=
  match p.2 s with
  | (.val v, s1) => ((p.1, v), s1)
  | (.fault msg, s1) =>
    ((p.1, some false), { s1 with issues := s1.issues ++ [faultEntry p.1 msg] })

/-- The `run_all_checks` loop over an arbitrary probe list: results are
collected in order and the state is threaded through. -/
def runChecks : List Probe → CheckerState → List (String × Option Bool) × CheckerState
  | [], s => ([], s)
  | p :: ps, s =>
    let r := runProbe p s
    let rest := runChecks ps r.2
    (r.1 :: rest.1, rest.2)

/-- Lift a boolean returning check into a `ProbeAction`. -/
def liftBool (f : CheckerState → Bool × CheckerState) : ProbeAction :=
  fun st => (ActionResult.val (some (f st).1), (f st).2)

/-- Lift `check_env_file` (which returns `None`) into a `ProbeAction`. -/
def liftOpt (f : CheckerState → Option Bool × CheckerState) : ProbeAction :=
  fun st => (ActionResult.val (f st).1, (f st).2)

/-- The fixed probe list of `run_all_checks`, in declared order. -/
def checksList (e : Env) : List Probe :=
  [("Версія Python", liftBool (check_python_version e.pyMajor e.pyMinor e.pyMicro)),
   ("Залежності", liftBool (check_dependencies e)),
   ("Конфігурація", liftBool (check_config_file e.config)),
   ("Змінні середовища", liftOpt (check_env_file e)),
   ("Дані", liftBool (check_data_files e)),
   ("Інструменти агента", liftBool (check_agent_tools e)),
   ("Основні файли", liftBool (check_main_files e)),
   ("MCP сервіси", liftBool (check_mcp_services e))]

/-- `run_all_checks`: run the eight declared probes in order. -/
def run_all_checks (e : Env) (s : CheckerState) :
    List (String × Option Bool) × CheckerState :=
  runChecks (checksList e) s

/-- `print_summary`: the returned readiness verdict, following the three
branches of the source (printing omitted). -/
def print_summary (s : CheckerState) : Bool :=
  let total_issues := s.issues.length
  let total_warnings := s.warnings.length
  if total_issues == 0 && total_warnings == 0 then true
  else if total_issues == 0 then true
  else false

/-- The exit status computed in `main`: `sys.exit(0 if is_ready else 1)`. -/
def exitCode (s : CheckerState) : Nat :=
  if print_summary s then 0 else 1

/-- `main`: run all checks from the fresh state and exit accordingly. -/
def mainExitCode (e : Env) : Nat :=
  exitCode (run_all_checks e initialState).2

/-- A concrete environment used to instantiate general theorems. -/
def sampleEnv : Env where
  pyMajor := 3
  pyMinor := 12
  pyMicro := 1
  importOk := fun _ => true
  config := ConfigFileState.parsed ⟨true, true, true, true, [⟨true⟩]⟩
  envFileExists := true
  getenv := fun _ => some "x"
  dataDirExists := true
  numPriceFiles := 3
  agentDataExists := true
  fileExists := fun _ => true
  portEnv := fun _ => none
  connect := fun _ => ConnectOutcome.result 0

/-- `s'` extends `s`: every collection of `s` is an initial segment of
the corresponding collection of `s'` (append only mutation). -/
def grows (s s' : CheckerState) : Prop :=
  (∃ a, s'.issues = s.issues ++ a)
  ∧ (∃ b, s'.warnings = s.warnings ++ b)
  ∧ (∃ c, s'.success = s.success ++ c)

/-- Like `grows` but the issues collection is unchanged. -/
def growsNI (s s' : CheckerState) : Prop :=
  s'.issues = s.issues
  ∧ (∃ b, s'.warnings = s.warnings ++ b)
  ∧ (∃ c, s'.success = s.success ++ c)

lemma grows_refl (s : CheckerState) : grows s s :=
  ⟨⟨[], (List.append_nil _).symm⟩, ⟨[], (List.append_nil _).symm⟩,
   ⟨[], (List.append_nil _).symm⟩⟩

lemma grows_trans {s s' s'' : CheckerState} (h : grows s s') (h' : grows s' s'') :
    grows s s'' := by
  obtain ⟨⟨a, ha⟩, ⟨b, hb⟩, ⟨c, hc⟩⟩ := h
  obtain ⟨⟨a', ha'⟩, ⟨b', hb'⟩, ⟨c', hc'⟩⟩ := h'
  exact ⟨⟨a ++ a', by rw [ha', ha, List.append_assoc]⟩,
         ⟨b ++ b', by rw [hb', hb, List.append_assoc]⟩,
         ⟨c ++ c', by rw [hc', hc, List.append_assoc]⟩⟩

lemma grows_app_issues (s : CheckerState) (l : List String) :
    grows s { s with issues := s.issues ++ l } :=
  ⟨⟨l, rfl⟩, ⟨[], (List.append_nil _).symm⟩, ⟨[], (List.append_nil _).symm⟩⟩

lemma grows_app_warnings (s : CheckerState) (l : List String) :
    grows s { s with warnings := s.warnings ++ l } :=
  ⟨⟨[], (List.append_nil _).symm⟩, ⟨l, rfl⟩, ⟨[], (List.append_nil _).symm⟩⟩

lemma grows_app_success (s : CheckerState) (l : List String) :
    grows s { s with success := s.success ++ l } :=
  ⟨⟨[], (List.append_nil _).symm⟩, ⟨[], (List.append_nil _).symm⟩, ⟨l, rfl⟩⟩

lemma growsNI_refl (s : CheckerState) : growsNI s s :=
  ⟨rfl, ⟨[], (List.append_nil _).symm⟩, ⟨[], (List.append_nil _).symm⟩⟩

lemma growsNI_trans {s s' s'' : CheckerState} (h : growsNI s s') (h' : growsNI s' s'') :
    growsNI s s'' := by
  obtain ⟨ha, ⟨b, hb⟩, ⟨c, hc⟩⟩ := h
  obtain ⟨ha', ⟨b', hb'⟩, ⟨c', hc'⟩⟩ := h'
  exact ⟨ha'.trans ha,
         ⟨b ++ b', by rw [hb', hb, List.append_assoc]⟩,
         ⟨c ++ c', by rw [hc', hc, List.append_assoc]⟩⟩

lemma growsNI_app_warnings (s : CheckerState) (l : List String) :
    growsNI s { s with warnings := s.warnings ++ l } :=
  ⟨rfl, ⟨l, rfl⟩, ⟨[], (List.append_nil _).symm⟩⟩

lemma growsNI_app_success (s : CheckerState) (l : List String) :
    growsNI s { s with success := s.success ++ l } :=
  ⟨rfl, ⟨[], (List.append_nil _).symm⟩, ⟨l, rfl⟩⟩

lemma growsNI_grows {s s' : CheckerState} (h : growsNI s s') : grows s s' :=
  ⟨⟨[], by rw [h.1, List.append_nil]⟩, h.2.1, h.2.2⟩

lemma foldl_grows {α : Type} (f : CheckerState → α → CheckerState)
    (h : ∀ st x, grows st (f st x)) :
    ∀ (l : List α) (st : CheckerState), grows st (l.foldl f st) := by
  intro l
  induction l with
  | nil => intro st; exact grows_refl st
  | cons a t ih => intro st; exact grows_trans (h st a) (ih (f st a))

lemma foldl_growsNI {α : Type} (f : CheckerState → α → CheckerState)
    (h : ∀ st x, growsNI st (f st x)) :
    ∀ (l : List α) (st : CheckerState), growsNI st (l.foldl f st) := by
  intro l
  induction l with
  | nil => intro st; exact growsNI_refl st
  | cons a t ih => intro st; exact growsNI_trans (h st a) (ih (f st a))

lemma foldl_grows_snd {α β : Type} (f : β × CheckerState → α → β × CheckerState)
    (h : ∀ acc x, grows acc.2 (f acc x).2) :
    ∀ (l : List α) (acc : β × CheckerState), grows acc.2 (l.foldl f acc).2 := by
  intro l
  induction l with
  | nil => intro acc; exact grows_refl acc.2
  | cons a t ih => intro acc; exact grows_trans (h acc a) (ih (f acc a))

lemma check_python_version_grows (ma mi mc : Nat) (s : CheckerState) :
    grows s (check_python_version ma mi mc s).2 := by
  unfold check_python_version
  split
  · exact grows_app_success s _
  · exact grows_app_issues s _

lemma depStep_grows (e : Env) (acc : List String × CheckerState) (p : String × String) :
    grows acc.2 (depStep e acc p).2 := by
  unfold depStep
  split
  · exact grows_app_success acc.2 _
  · exact grows_app_issues acc.2 _

lemma check_dependencies_grows (e : Env) (s : CheckerState) :
    grows s (check_dependencies e s).2 :=
  foldl_grows_snd (depStep e) (depStep_grows e) required_packages ([], s)

lemma check_config_file_grows (cfg : ConfigFileState) (s : CheckerState) :
    grows s (check_config_file cfg s).2 := by
  unfold check_config_file
  match cfg with
  | .absent => exact grows_app_issues s _
  | .parseError m => exact grows_app_issues s _
  | .readError m => exact grows_app_issues s _
  | .parsed d =>
    dsimp only
    split
    · exact grows_app_issues s _
    split
    · exact grows_app_issues s _
    split
    · exact grows_app_issues s _
    split
    · exact grows_app_issues s _
    split
    · exact grows_trans (grows_app_warnings s _) (grows_app_success _ _)
    · exact grows_trans (grows_app_success s _) (grows_app_success _ _)

lemma envVarStepCrit_growsNI (e : Env) (st : CheckerState) (p : String × String) :
    growsNI st (envVarStepCrit e st p) := by
  unfold envVarStepCrit
  split
  · exact growsNI_app_success st _
  · exact growsNI_app_warnings st _

lemma envVarStepOpt_growsNI (e : Env) (st : CheckerState) (p : String × String) :
    growsNI st (envVarStepOpt e st p) := by
  unfold envVarStepOpt
  split
  · exact growsNI_app_success st _
  · exact growsNI_app_warnings st _

lemma check_env_file_growsNI (e : Env) (s : CheckerState) :
    growsNI s (check_env_file e s).2 := by
  unfold check_env_file
  dsimp only
  have h1 : growsNI s (if e.envFileExists then
      { s with success := s.success ++ [envFoundMsg] }
    else
      { s with warnings := s.warnings ++ [envNotFoundWarn] }) := by
    split
    · exact growsNI_app_success s _
    · exact growsNI_app_warnings s _
  exact growsNI_trans h1 (growsNI_trans
    (foldl_growsNI (envVarStepCrit e) (envVarStepCrit_growsNI e) critical_vars _)
    (foldl_growsNI (envVarStepOpt e) (envVarStepOpt_growsNI e) optional_vars _))

lemma check_env_file_grows (e : Env) (s : CheckerState) :
    grows s (check_env_file e s).2 :=
  growsNI_grows (check_env_file_growsNI e s)

lemma check_data_files_grows (e : Env) (s : CheckerState) :
    grows s (check_data_files e s).2 := by
  unfold check_data_files
  cases hd : e.dataDirExists
  · simp [hd]
    exact grows_app_issues s _
  · cases hp : e.numPriceFiles == 0
    · cases ha : e.agentDataExists
      · simp [hd, hp, ha]
        exact ⟨⟨[], by simp⟩, ⟨[agentDataWarnMsg], by simp⟩,
          ⟨[priceOkMsg e.numPriceFiles], by simp⟩⟩
      · simp [hd, hp, ha]
        exact ⟨⟨[], by simp⟩, ⟨[], by simp⟩,
          ⟨[priceOkMsg e.numPriceFiles, agentDataOkMsg], by simp⟩⟩
    · cases ha : e.agentDataExists
      · simp [hd, hp, ha]
        exact ⟨⟨[], by simp⟩, ⟨[priceWarnMsg, agentDataWarnMsg], by simp⟩, ⟨[], by simp⟩⟩
      · simp [hd, hp, ha]
        exact ⟨⟨[], by simp⟩, ⟨[priceWarnMsg], by simp⟩, ⟨[agentDataOkMsg], by simp⟩⟩

lemma mcpStep_grows (e : Env) (acc : Bool × CheckerState) (p : String × Nat) :
    grows acc.2 (mcpStep e acc p).2 := by
  unfold mcpStep
  split
  · exact grows_app_success acc.2 _
  · exact grows_app_warnings acc.2 _

lemma check_mcp_services_grows (e : Env) (s : CheckerState) :
    grows s (check_mcp_services e s).2 :=
  foldl_grows_snd (mcpStep e) (mcpStep_grows e) (mcpPorts e) (true, s)

lemma fileStep_grows (e : Env) (acc : Bool × CheckerState) (p : String) :
    grows acc.2 (fileStep e acc p).2 := by
  unfold fileStep
  split
  · exact grows_app_success acc.2 _
  · exact grows_app_issues acc.2 _

lemma check_agent_tools_grows (e : Env) (s : CheckerState) :
    grows s (check_agent_tools e s).2 :=
  foldl_grows_snd (fileStep e) (fileStep_grows e) required_tools (true, s)

lemma check_main_files_grows (e : Env) (s : CheckerState) :
    grows s (check_main_files e s).2 :=
  foldl_grows_snd (fileStep e) (fileStep_grows e) required_files (true, s)

lemma runProbe_grows (p : Probe) (h : ∀ st, grows st (p.2 st).2) (s : CheckerState) :
    grows s (runProbe p s).2 := by
  unfold runProbe
  have hg := h s
  match hm : p.2 s with
  | (.val v, s1) => rw [hm] at hg; exact hg
  | (.fault msg, s1) =>
    rw [hm] at hg
    exact grows_trans hg (grows_app_issues s1 _)

lemma runChecks_grows (cs : List Probe) (h : ∀ p, p ∈ cs → ∀ st, grows st (p.2 st).2) :
    ∀ s, grows s (runChecks cs s).2 := by
  induction cs with
  | nil => intro s; exact grows_refl s
  | cons p ps ih =>
    intro s
    refine grows_trans (runProbe_grows p (h p (List.mem_cons_self p ps)) s) ?_
    exact ih (fun q hq => h q (List.mem_cons_of_mem p hq)) (runProbe p s).2

lemma run_all_checks_grows (e : Env) (s : CheckerState) :
    grows s (run_all_checks e s).2 := by
  refine runChecks_grows (checksList e) ?_ s
  intro p hp st
  simp only [checksList, List.mem_cons, List.not_mem_nil, or_false] at hp
  rcases hp with h | h | h | h | h | h | h | h <;> subst h <;> dsimp only [liftBool, liftOpt]
  · exact check_python_version_grows _ _ _ st
  · exact check_dependencies_grows e st
  · exact check_config_file_grows e.config st
  · exact check_env_file_grows e st
  · exact check_data_files_grows e st
  · exact check_agent_tools_grows e st
  · exact check_main_files_grows e st
  · exact check_mcp_services_grows e st

lemma print_summary_eq (s : CheckerState) : print_summary s = s.issues.isEmpty := by
  unfold print_summary
  rcases s with ⟨is, ws, su⟩
  cases is <;> cases ws <;> simp

lemma mcp_foldl_spec (e : Env) : ∀ (l : List (String × Nat)) (b : Bool) (s : CheckerState),
    (l.foldl (mcpStep e) (b, s)).2.issues = s.issues
  ∧ (l.foldl (mcpStep e) (b, s)).1 = (b && l.all (fun p => check_port (e.connect p.2)))
  ∧ (l.foldl (mcpStep e) (b, s)).2.warnings = s.warnings ++
      (l.filter (fun p => !check_port (e.connect p.2))).map
        (fun p => serviceWarnMsg p.1 p.2) := by
  intro l
  induction l with
  | nil => intro b s; exact ⟨rfl, by simp, by simp⟩
  | cons q t ih =>
    intro b s
    cases hc : check_port (e.connect q.2)
    · have hstep : mcpStep e (b, s) q =
          (false, { s with warnings := s.warnings ++ [serviceWarnMsg q.1 q.2] }) := by
        simp [mcpStep, hc]
      rw [List.foldl_cons, hstep]
      obtain ⟨h1, h2, h3⟩ :=
        ih false { s with warnings := s.warnings ++ [serviceWarnMsg q.1 q.2] }
      refine ⟨h1, ?_, ?_⟩
      · rw [h2, List.all_cons, hc]; simp
      · rw [h3]; simp [hc]
    · have hstep : mcpStep e (b, s) q =
          (b, { s with success := s.success ++ [serviceOkMsg q.1 q.2] }) := by
        simp [mcpStep, hc]
      rw [List.foldl_cons, hstep]
      obtain ⟨h1, h2, h3⟩ :=
        ih b { s with success := s.success ++ [serviceOkMsg q.1 q.2] }
      refine ⟨h1, ?_, ?_⟩
      · rw [h2]; simp [hc]
      · rw [h3]; simp [hc]

lemma runProbe_name (p : Probe) (s : CheckerState) : (runProbe p s).1.1 = p.1 := by
  unfold runProbe
  split <;> rfl

lemma runChecks_names (cs : List Probe) :
    ∀ s, (runChecks cs s).1.map Prod.fst = cs.map Prod.fst := by
  induction cs with
  | nil => intro s; rfl
  | cons p ps ih =>
    intro s
    have hstep : (runChecks (p :: ps) s).1 =
        (runProbe p s).1 :: (runChecks ps (runProbe p s).2).1 := rfl
    rw [hstep, List.map_cons, runProbe_name, ih, List.map_cons]

/-- The field check order of `check_config_file` and the first field it
finds missing. -/
def firstMissingField (d : ConfigDoc) : String :=
  if !d.has_agent_type then "agent_type"
  else if !d.has_date_range then "date_range"
  else if !d.has_models then "models"
  else "agent_config"

/-- A probe action that always raises, used to instantiate the runner
fault theorem. -/
def faultyAction : ProbeAction := fun st => (ActionResult.fault "boom", st)

/-- Claim C1: the readiness verdict returned by `print_summary` is true
exactly when the issues collection is empty, independently of the
warnings, and the exit status of `main` is 0 exactly when the verdict is
true and 1 otherwise. -/
theorem readiness_verdict_exit_spec : ∀ (s : CheckerState),
    (print_summary s = true ↔ s.issues = [])
  ∧ (∀ w : List String, print_summary { s with warnings := w } = print_summary s)
  ∧ (exitCode s = 0 ↔ s.issues = [])
  ∧ (exitCode s = 1 ↔ s.issues ≠ [])
  ∧ (∀ e : Env, mainExitCode e = exitCode (run_all_checks e initialState).2) := by
  intro s
  refine ⟨?_, ?_, ?_, ?_, fun e => rfl⟩
  · rw [print_summary_eq]
    cases s.issues <;> simp
  · intro w
    rw [print_summary_eq, print_summary_eq]
  · unfold exitCode
    rw [print_summary_eq]
    cases s.issues <;> simp
  · unfold exitCode
    rw [print_summary_eq]
    cases s.issues <;> simp

/-- Claim C2: the runner produces one result per declared probe in the
declared order; a fault raised by a probe action is caught, turned into
exactly one Issue entry naming the probe, recorded as a failed result,
and the remaining probes still run from the post-fault state. -/
theorem runner_fault_isolation_spec :
    (∀ (cs : List Probe) (s : CheckerState),
      (runChecks cs s).1.map Prod.fst = cs.map Prod.fst)
  ∧ (∀ (nm : String) (act : ProbeAction) (rest : List Probe) (msg : String)
       (s s1 : CheckerState),
       act s = (ActionResult.fault msg, s1) →
       runChecks ((nm, act) :: rest) s =
         ((nm, some false) ::
            (runChecks rest { s1 with issues := s1.issues ++ [faultEntry nm msg] }).1,
          (runChecks rest { s1 with issues := s1.issues ++ [faultEntry nm msg] }).2))
  ∧ (∀ (e : Env) (s : CheckerState), (run_all_checks e s).1.map Prod.fst =
      ["Версія Python", "Залежності", "Конфігурація", "Змінні середовища",
       "Дані", "Інструменти агента", "Основні файли", "MCP сервіси"]) := by
  refine ⟨fun cs s => runChecks_names cs s, ?_, ?_⟩
  · intro nm act rest msg s s1 h
    have hp : runProbe (nm, act) s =
        ((nm, some false), { s1 with issues := s1.issues ++ [faultEntry nm msg] }) := by
      unfold runProbe
      dsimp only
      rw [h]
    have hstep : runChecks ((nm, act) :: rest) s =
        ((runProbe (nm, act) s).1 :: (runChecks rest (runProbe (nm, act) s).2).1,
         (runChecks rest (runProbe (nm, act) s).2).2) := rfl
    rw [hstep, hp]
  · intro e s
    exact runChecks_names (checksList e) s

/-- Witness for C2 at a concrete faulting probe. -/
theorem runner_fault_isolation_witness :
    runChecks [("X", faultyAction)] initialState =
      ([("X", some false)], ⟨[faultEntry "X" "boom"], [], []⟩) := by
  have h := runner_fault_isolation_spec.2.1 "X" faultyAction [] "boom"
    initialState initialState rfl
  simpa using h

/-- Claim C3: the version probe passes (one Success entry, returns true)
exactly when `major >= 3` and `minor >= 10`, and otherwise appends one
Issue entry and returns false; (3, 9) yields an Issue while (3, 10) and
(3, 15) yield a Success. -/
theorem check_python_version_spec : ∀ (ma mi mc : Nat) (s : CheckerState),
    ((3 ≤ ma ∧ 10 ≤ mi) →
      check_python_version ma mi mc s =
        (true, { s with success := s.success ++ [pyOkMsg ma mi mc] }))
  ∧ (¬(3 ≤ ma ∧ 10 ≤ mi) →
      check_python_version ma mi mc s =
        (false, { s with issues := s.issues ++ [pyBadMsg ma mi mc] }))
  ∧ (check_python_version 3 9 0 initialState =
      (false, { initialState with issues := [pyBadMsg 3 9 0] }))
  ∧ (check_python_version 3 10 0 initialState =
      (true, { initialState with success := [pyOkMsg 3 10 0] }))
  ∧ (check_python_version 3 15 0 initialState =
      (true, { initialState with success := [pyOkMsg 3 15 0] })) := by
  intro ma mi mc s
  refine ⟨?_, ?_, rfl, rfl, rfl⟩
  · intro h
    simp [check_python_version, h]
  · intro h
    simp [check_python_version, h]

/-- Witness for C3 at version (3, 12, 1). -/
theorem check_python_version_witness :
    check_python_version 3 12 1 initialState =
      (true, { initialState with success := [pyOkMsg 3 12 1] }) := by
  have h := (check_python_version_spec 3 12 1 initialState).1 (by decide)
  simpa using h

/-- Claim C4 (amended): the environment probe appends only Warning or
Success entries, never an Issue entry, and never raises; its Python body
has no return statement, so its result is `None` (falsy), not an
explicit success value. -/
theorem check_env_file_spec : ∀ (e : Env) (s : CheckerState),
    ((check_env_file e s).1 = none)
  ∧ ((check_env_file e s).2.issues = s.issues)
  ∧ (∃ w, (check_env_file e s).2.warnings = s.warnings ++ w)
  ∧ (∃ u, (check_env_file e s).2.success = s.success ++ u) := by
  intro e s
  obtain ⟨h1, h2, h3⟩ := check_env_file_growsNI e s
  exact ⟨rfl, h1, h2, h3⟩

/-- Counterexample for C4 as stated: at a fully configured environment
the probe still does not return success; its return value is `None`. -/
theorem check_env_file_counterexample :
    (check_env_file sampleEnv initialState).1 ≠ some true := by
  simp [check_env_file]

/-- Claim C5: a parsed configuration missing one of the four required
fields yields exactly one Issue naming the first missing field in the
fixed order, the probe returns failure, and no warning or success entry
is appended by that call. -/
theorem config_missing_field_spec : ∀ (d : ConfigDoc) (s : CheckerState),
    ¬(d.has_agent_type = true ∧ d.has_date_range = true ∧ d.has_models = true ∧
      d.has_agent_config = true) →
    check_config_file (ConfigFileState.parsed d) s =
      (false, { s with issues := s.issues ++ [missingFieldMsg (firstMissingField d)] }) := by
  intro d s h
  rcases d with ⟨a, b, c, g, ms⟩
  cases a <;> cases b <;> cases c <;> cases g <;>
    simp_all [check_config_file, firstMissingField]

/-- Witness for C5: a configuration missing only `models`. -/
theorem config_missing_field_witness :
    check_config_file (ConfigFileState.parsed ⟨true, true, false, true, []⟩) initialState =
      (false, { initialState with issues := [missingFieldMsg "models"] }) := by
  have h := config_missing_field_spec ⟨true, true, false, true, []⟩ initialState (by simp)
  simpa [firstMissingField] using h

/-- Claim C6: the network probe never appends an Issue; each unreachable
service yields a Warning; faults during the connect attempt count as
unreachable; the boolean is true exactly when every service is
reachable; and the readiness verdict is unaffected. -/
theorem check_mcp_services_spec : ∀ (e : Env) (s : CheckerState),
    ((check_mcp_services e s).2.issues = s.issues)
  ∧ ((check_mcp_services e s).2.warnings = s.warnings ++
      ((mcpPorts e).filter (fun p => !check_port (e.connect p.2))).map
        (fun p => serviceWarnMsg p.1 p.2))
  ∧ ((check_mcp_services e s).1 =
      (mcpPorts e).all (fun p => check_port (e.connect p.2)))
  ∧ (∀ m, check_port (ConnectOutcome.exn m) = false)
  ∧ (∀ c : Int, check_port (ConnectOutcome.result c) = true ↔ c = 0)
  ∧ (print_summary (check_mcp_services e s).2 = print_summary s) := by
  intro e s
  obtain ⟨h1, h2, h3⟩ := mcp_foldl_spec e (mcpPorts e) true s
  have hdef : check_mcp_services e s = List.foldl (mcpStep e) (true, s) (mcpPorts e) := rfl
  refine ⟨?_, ?_, ?_, fun m => rfl, ?_, ?_⟩
  · rw [hdef, h1]
  · rw [hdef, h3]
  · rw [hdef, h2]
    simp
  · intro c
    simp [check_port]
  · rw [print_summary_eq, print_summary_eq, hdef, h1]

/-- Claim C7: a valid configuration with all four required fields and no
enabled model yields exactly one Warning about enabled models and the
probe returns success. -/
theorem config_no_enabled_models_spec : ∀ (d : ConfigDoc) (s : CheckerState),
    d.has_agent_type = true → d.has_date_range = true → d.has_models = true →
    d.has_agent_config = true →
    d.models.filter (fun m => m.enabled) = [] →
    check_config_file (ConfigFileState.parsed d) s =
      (true, { s with
        warnings := s.warnings ++ [noEnabledModelsWarn],
        success := s.success ++ [configValidMsg] }) := by
  intro d s h1 h2 h3 h4 h5
  rcases d with ⟨a, b, c, g, ms⟩
  simp_all [check_config_file]

/-- Witness for C7: a configuration whose single model is disabled. -/
theorem config_no_enabled_models_witness :
    check_config_file (ConfigFileState.parsed ⟨true, true, true, true, [⟨false⟩]⟩)
      initialState =
      (true, { initialState with
        warnings := [noEnabledModelsWarn],
        success := [configValidMsg] }) := by
  have h := config_no_enabled_models_spec ⟨true, true, true, true, [⟨false⟩]⟩
    initialState rfl rfl rfl rfl rfl
  simpa using h

/-- Claim C8: the data probe fails with an Issue when the data directory
is absent; otherwise it succeeds, warning when no price file matches and
when the `agent_data` subdirectory is absent. -/
theorem check_data_files_spec : ∀ (e : Env) (s : CheckerState),
    (e.dataDirExists = false →
      check_data_files e s = (false, { s with issues := s.issues ++ [dataDirMsg] }))
  ∧ (e.dataDirExists = true →
      check_data_files e s =
        (true, { s with
          warnings := s.warnings ++
            (if e.numPriceFiles == 0 then [priceWarnMsg] else []) ++
            (if e.agentDataExists then [] else [agentDataWarnMsg]),
          success := s.success ++
            (if e.numPriceFiles == 0 then [] else [priceOkMsg e.numPriceFiles]) ++
            (if e.agentDataExists then [agentDataOkMsg] else []) })) := by
  intro e s
  constructor
  · intro h
    simp [check_data_files, h]
  · intro h
    cases hp : e.numPriceFiles == 0 <;> cases ha : e.agentDataExists <;>
      simp [check_data_files, h, hp, ha]

/-- Witness for C8 at a present data directory with price files. -/
theorem check_data_files_witness :
    check_data_files sampleEnv initialState =
      (true, { initialState with success := [priceOkMsg 3, agentDataOkMsg] }) := by
  have h := (check_data_files_spec sampleEnv initialState).2 rfl
  simpa using h

/-- Claim C9: every check only appends to the three collections, so over
any invocation (and over a whole run) each collection of the starting
state is an initial segment of the final one. -/
theorem checks_append_only_spec : ∀ (e : Env) (s : CheckerState),
    grows s (check_python_version e.pyMajor e.pyMinor e.pyMicro s).2
  ∧ grows s (check_dependencies e s).2
  ∧ grows s (check_config_file e.config s).2
  ∧ grows s (check_env_file e s).2
  ∧ grows s (check_data_files e s).2
  ∧ grows s (check_agent_tools e s).2
  ∧ grows s (check_main_files e s).2
  ∧ grows s (check_mcp_services e s).2
  ∧ grows s (run_all_checks e s).2 :=
  fun e s =>
    ⟨check_python_version_grows e.pyMajor e.pyMinor e.pyMicro s,
     check_dependencies_grows e s,
     check_config_file_grows e.config s,
     check_env_file_grows e s,
     check_data_files_grows e s,
     check_agent_tools_grows e s,
     check_main_files_grows e s,
     check_mcp_services_grows e s,
     run_all_checks_grows e s⟩

/-- Claim C10: the single port helper is a total function of the connect
outcome; it returns true exactly when `connect_ex` reported result code
0, and false in every other case, including any raised exception. -/
theorem check_port_total_spec : ∀ (o : ConnectOutcome),
    check_port o = true ↔ o = ConnectOutcome.result 0 := by
  intro o
  cases o with
  | result c => simp [check_port]
  | exn m => simp [check_port]
